import Mathlib

/-!
# The settings facade of `core_Settings.cpp`

A shallow embedding of `openpeer::core::internal::Settings` and of the static
`ISettings` entry points that resolve the singleton and call into it.

Modelling decisions (all read off the source):

* The facade's member variables are the fields of `Settings`.  `mLock` is a recursive
  lock; in the sequential model it is its recursion depth, so that "the lock this call
  took has been released" is the statement that the depth is back at its entry value.
* The delegate, the lower-layer `stack::ISettings` and nothing else are called by the
  facade.  Each such call is recorded as an `Observed` entry: the call itself together
  with the facade state at the moment of the call (what a re-entrant callee would see).
* The delegate is application code.  Its getters are `const` member functions; the model
  takes the answer of each getter as a function of the key.  Its setters and `clear`
  are only recorded.
* `ZS_LOG_*` diagnostics are not modelled.
-/

namespace OpenPeer

/-- Object identity (`PUID` of zsLib). -/
abbrev PUID := Nat

/-- A C `float`, carried as its IEEE-754 bit pattern.  The facade never computes with it. -/
structure CFloat where
  bits : Nat
  deriving DecidableEq, Repr

/-- A C `double`, carried as its IEEE-754 bit pattern.  The facade never computes with it. -/
structure CDouble where
  bits : Nat
  deriving DecidableEq, Repr

/-- The value of `return 0;` in a function returning `float`: positive zero, whose bit
pattern is all zeroes. -/
def CFloat.zero : CFloat := ⟨0⟩

/-- The value of `return 0;` in a function returning `double`. -/
def CDouble.zero : CDouble := ⟨0⟩

/-- An object behind an `ISettingsDelegatePtr`: its identity and what its `const`
getters answer.  `LONG` and `ULONG` values are passed through untouched, so they are
carried as `Int` and `Nat`. -/
structure ISettingsDelegate where
  id : PUID
  getString : String → String
  getInt : String → Int
  getUInt : String → Nat
  getBool : String → Bool
  getFloat : String → CFloat
  getDouble : String → CDouble

/-- The member functions of the delegate interface, with their arguments. -/
inductive DelegateCall where
  | getString (key : String)
  | getInt (key : String)
  | getUInt (key : String)
  | getBool (key : String)
  | getFloat (key : String)
  | getDouble (key : String)
  | setString (key : String) (value : String)
  | setInt (key : String) (value : Int)
  | setUInt (key : String) (value : Nat)
  | setBool (key : String) (value : Bool)
  | setFloat (key : String) (value : CFloat)
  | setDouble (key : String) (value : CDouble)
  | clear (key : String)
  deriving DecidableEq, Repr

/-- A call that leaves the facade: a member function of the delegate with identity `id`,
or one of the two `stack::ISettings` functions the facade uses.  The argument of
`stack::ISettings::setup` is a `stack::ISettingsDelegatePtr`: null, or the `Settings`
object with the given `mID`. -/
inductive ExternalCall where
  | delegate (id : PUID) (c : DelegateCall)
  | stackSetup (arg : Option PUID)
  | stackApplyDefaults
  deriving DecidableEq, Repr

/-- The member variables of `Settings`. -/
structure Settings where
  /-- Identity token; only used by `log`. -/
  mID : PUID
  /-- Weak reference to the object itself, by identity; unset before `create` sets it. -/
  mThisWeak : Option PUID
  /-- Recursion depth of the recursive lock `mLock`. -/
  mLock : Nat
  mDelegate : Option ISettingsDelegate
  mAppliedDefaults : Bool

/-- An external call together with the facade state at the moment it is made. -/
structure Observed where
  call : ExternalCall
  facade : Settings

/-- What a member function leaves behind: its return value, the facade afterwards and
the external calls it made, in order. -/
structure Outcome (α : Type) where
  ret : α
  self : Settings
  calls : List Observed

/-- Modelled from the spec: the macro `OPENPEER_CORE_SETTING_STACK_CORE_THREAD_PRIORITY`
is defined in a header that is not part of the sources; section 6 of the specification
names the key `stack-core-thread-priority`. -/
def OPENPEER_CORE_SETTING_STACK_CORE_THREAD_PRIORITY : String := "stack-core-thread-priority"

/-- Modelled from the spec: the macro `OPENPEER_CORE_SETTING_STACK_MEDIA_THREAD_PRIORITY`
is defined in a header that is not part of the sources; section 6 of the specification
names the key `stack-media-thread-priority`. -/
def OPENPEER_CORE_SETTING_STACK_MEDIA_THREAD_PRIORITY : String := "stack-media-thread-priority"

/-- Modelled from the spec: the declaration of the member `mAppliedDefaults` is in a header
that is not part of the sources, and the constructor does not assign it; section 4.1 of the
specification has `create()` return an instance with `defaultsApplied = false`. -/
def initialAppliedDefaults : Bool := false

namespace Settings

/-- Construction of `AutoRecursiveLock lock(mLock)`. -/
def lock (self : Settings) : Settings := { self with mLock := self.mLock + 1 }

/-- Destruction of the `AutoRecursiveLock` at the end of its scope (also on `return`). -/
def unlock (self : Settings) : Settings := { self with mLock := self.mLock - 1 }

/-- `Settings::create`: `new Settings()`, then the weak self reference is set.  The
constructor has no initialiser list, so the members start as their types construct them:
the delegate pointer null, the flag as `initialAppliedDefaults`.  The identity is whatever
the declaration of `mID` produces and is a parameter here. -/
def create (id : PUID) : Settings :=
  let pThis : Settings :=
    { mID := id, mThisWeak := none, mLock := 0, mDelegate := none,
      mAppliedDefaults := initialAppliedDefaults }
  { pThis with mThisWeak := some pThis.mID }

/-- `Settings::setup`. -/
def setup (self : Settings) (delegate : Option ISettingsDelegate) : Outcome Unit :=
  -- { AutoRecursiveLock lock(mLock); mDelegate = delegate; }
  let locked := self.lock
  let stored := { locked with mDelegate := delegate }
  let released := stored.unlock
  -- stack::ISettings::setup(delegate ? mThisWeak.lock() : stack::ISettingsDelegatePtr());
  let arg : Option PUID := if delegate.isSome then released.mThisWeak else none
  ⟨(), released, [⟨.stackSetup arg, released⟩]⟩

/-- The block every getter and setter starts with:
`{ AutoRecursiveLock lock(mLock); delegate = mDelegate; if (!delegate) return ...; }`.
It yields the local `delegate` and the facade after the lock is released again. -/
def snapshotDelegate (self : Settings) : Option ISettingsDelegate × Settings :=
  let locked := self.lock
  let delegate := locked.mDelegate
  (delegate, locked.unlock)

/-- `Settings::getString`. -/
def getString (self : Settings) (key : String) : Outcome String :=
  match self.snapshotDelegate with
  | (none, s) => ⟨"", s, []⟩
  | (some delegate, s) => ⟨delegate.getString key, s, [⟨.delegate delegate.id (.getString key), s⟩]⟩

/-- `Settings::getInt`. -/
def getInt (self : Settings) (key : String) : Outcome Int :=
  match self.snapshotDelegate with
  | (none, s) => ⟨0, s, []⟩
  | (some delegate, s) => ⟨delegate.getInt key, s, [⟨.delegate delegate.id (.getInt key), s⟩]⟩

/-- `Settings::getUInt`. -/
def getUInt (self : Settings) (key : String) : Outcome Nat :=
  match self.snapshotDelegate with
  | (none, s) => ⟨0, s, []⟩
  | (some delegate, s) => ⟨delegate.getUInt key, s, [⟨.delegate delegate.id (.getUInt key), s⟩]⟩

/-- `Settings::getBool`; its `return 0;` is `false`. -/
def getBool (self : Settings) (key : String) : Outcome Bool :=
  match self.snapshotDelegate with
  | (none, s) => ⟨false, s, []⟩
  | (some delegate, s) => ⟨delegate.getBool key, s, [⟨.delegate delegate.id (.getBool key), s⟩]⟩

/-- `Settings::getFloat`. -/
def getFloat (self : Settings) (key : String) : Outcome CFloat :=
  match self.snapshotDelegate with
  | (none, s) => ⟨CFloat.zero, s, []⟩
  | (some delegate, s) => ⟨delegate.getFloat key, s, [⟨.delegate delegate.id (.getFloat key), s⟩]⟩

/-- `Settings::getDouble`. -/
def getDouble (self : Settings) (key : String) : Outcome CDouble :=
  match self.snapshotDelegate with
  | (none, s) => ⟨CDouble.zero, s, []⟩
  | (some delegate, s) => ⟨delegate.getDouble key, s, [⟨.delegate delegate.id (.getDouble key), s⟩]⟩

/-- `Settings::setString`. -/
def setString (self : Settings) (key value : String) : Outcome Unit :=
  match self.snapshotDelegate with
  | (none, s) => ⟨(), s, []⟩
  | (some delegate, s) => ⟨(), s, [⟨.delegate delegate.id (.setString key value), s⟩]⟩

/-- `Settings::setInt`. -/
def setInt (self : Settings) (key : String) (value : Int) : Outcome Unit :=
  match self.snapshotDelegate with
  | (none, s) => ⟨(), s, []⟩
  | (some delegate, s) => ⟨(), s, [⟨.delegate delegate.id (.setInt key value), s⟩]⟩

/-- `Settings::setUInt`. -/
def setUInt (self : Settings) (key : String) (value : Nat) : Outcome Unit :=
  match self.snapshotDelegate with
  | (none, s) => ⟨(), s, []⟩
  | (some delegate, s) => ⟨(), s, [⟨.delegate delegate.id (.setUInt key value), s⟩]⟩

/-- `Settings::setBool`. -/
def setBool (self : Settings) (key : String) (value : Bool) : Outcome Unit :=
  match self.snapshotDelegate with
  | (none, s) => ⟨(), s, []⟩
  | (some delegate, s) => ⟨(), s, [⟨.delegate delegate.id (.setBool key value), s⟩]⟩

/-- `Settings::setFloat`. -/
def setFloat (self : Settings) (key : String) (value : CFloat) : Outcome Unit :=
  match self.snapshotDelegate with
  | (none, s) => ⟨(), s, []⟩
  | (some delegate, s) => ⟨(), s, [⟨.delegate delegate.id (.setFloat key value), s⟩]⟩

/-- `Settings::setDouble`. -/
def setDouble (self : Settings) (key : String) (value : CDouble) : Outcome Unit :=
  match self.snapshotDelegate with
  | (none, s) => ⟨(), s, []⟩
  | (some delegate, s) => ⟨(), s, [⟨.delegate delegate.id (.setDouble key value), s⟩]⟩

/-- `Settings::clear`. -/
def clear (self : Settings) (key : String) : Outcome Unit :=
  match self.snapshotDelegate with
  | (none, s) => ⟨(), s, []⟩
  | (some delegate, s) => ⟨(), s, [⟨.delegate delegate.id (.clear key), s⟩]⟩

/-- The first block of `Settings::applyDefaults`:
`{ AutoRecursiveLock lock(mLock); get(mAppliedDefaults) = true; }`. -/
def markDefaultsApplied (self : Settings) : Settings :=
  let locked := self.lock
  let marked := { locked with mAppliedDefaults := true }
  marked.unlock

/-- `Settings::applyDefaults`. -/
def applyDefaults (self : Settings) : Outcome Unit :=
  let s0 := self.markDefaultsApplied
  let r1 := s0.setString OPENPEER_CORE_SETTING_STACK_CORE_THREAD_PRIORITY "normal"
  let r2 := r1.self.setString OPENPEER_CORE_SETTING_STACK_MEDIA_THREAD_PRIORITY "real-time"
  -- stack::ISettings::applyDefaults();
  ⟨(), r2.self, r1.calls ++ r2.calls ++ [⟨.stackApplyDefaults, r2.self⟩]⟩

/-- The first block of `Settings::applyDefaultsIfNoDelegatePresent`:
`{ AutoRecursiveLock lock(mLock); if (mDelegate) return; if (mAppliedDefaults) return; }`.
The flag is `true` when the function returns from inside the block. -/
def guardDefaults (self : Settings) : Bool × Settings :=
  let locked := self.lock
  if locked.mDelegate.isSome then (true, locked.unlock)
  else if locked.mAppliedDefaults then (true, locked.unlock)
  else (false, locked.unlock)

/-- `Settings::applyDefaultsIfNoDelegatePresent`. -/
def applyDefaultsIfNoDelegatePresent (self : Settings) : Outcome Unit :=
  match self.guardDefaults with
  | (true, s) => ⟨(), s, []⟩
  | (false, s) => s.applyDefaults

end Settings

/-! ## The static entry points

`Settings::singleton()` hands out the process-wide object, or null once it is gone; the
entry points take what it returned as `singleton`. -/

/-- `ISettings::setup`: `if (!singleton) return; singleton->setup(delegate);`. -/
def ISettings.setup (singleton : Option Settings) (delegate : Option ISettingsDelegate) :
    Option Settings × List Observed :=
  match singleton with
  | none => (none, [])
  | some s => (some (s.setup delegate).self, (s.setup delegate).calls)

/-- `ISettings::applyDefaults`: `if (!singleton) return; singleton->applyDefaults();`. -/
def ISettings.applyDefaults (singleton : Option Settings) : Option Settings × List Observed :=
  match singleton with
  | none => (none, [])
  | some s => (some s.applyDefaults.self, s.applyDefaults.calls)

/-- `ISettingsForStack::applyDefaultsIfNoDelegatePresent`. -/
def ISettingsForStack.applyDefaultsIfNoDelegatePresent (singleton : Option Settings) :
    Option Settings × List Observed :=
  match singleton with
  | none => (none, [])
  | some s =>
    (some s.applyDefaultsIfNoDelegatePresent.self, s.applyDefaultsIfNoDelegatePresent.calls)

/-! ## Sequences of member function calls -/

/-- One call of a member function of the facade, with its arguments. -/
inductive Op where
  | setup (delegate : Option ISettingsDelegate)
  | applyDefaults
  | applyDefaultsIfNoDelegatePresent
  | getString (key : String)
  | getInt (key : String)
  | getUInt (key : String)
  | getBool (key : String)
  | getFloat (key : String)
  | getDouble (key : String)
  | setString (key : String) (value : String)
  | setInt (key : String) (value : Int)
  | setUInt (key : String) (value : Nat)
  | setBool (key : String) (value : Bool)
  | setFloat (key : String) (value : CFloat)
  | setDouble (key : String) (value : CDouble)
  | clear (key : String)

/-- The facade after the call and the external calls the call made. -/
def Op.run (op : Op) (s : Settings) : Settings × List Observed :=
  match op with
  | .setup delegate => ((s.setup delegate).self, (s.setup delegate).calls)
  | .applyDefaults => (s.applyDefaults.self, s.applyDefaults.calls)
  | .applyDefaultsIfNoDelegatePresent =>
    (s.applyDefaultsIfNoDelegatePresent.self, s.applyDefaultsIfNoDelegatePresent.calls)
  | .getString key => ((s.getString key).self, (s.getString key).calls)
  | .getInt key => ((s.getInt key).self, (s.getInt key).calls)
  | .getUInt key => ((s.getUInt key).self, (s.getUInt key).calls)
  | .getBool key => ((s.getBool key).self, (s.getBool key).calls)
  | .getFloat key => ((s.getFloat key).self, (s.getFloat key).calls)
  | .getDouble key => ((s.getDouble key).self, (s.getDouble key).calls)
  | .setString key value => ((s.setString key value).self, (s.setString key value).calls)
  | .setInt key value => ((s.setInt key value).self, (s.setInt key value).calls)
  | .setUInt key value => ((s.setUInt key value).self, (s.setUInt key value).calls)
  | .setBool key value => ((s.setBool key value).self, (s.setBool key value).calls)
  | .setFloat key value => ((s.setFloat key value).self, (s.setFloat key value).calls)
  | .setDouble key value => ((s.setDouble key value).self, (s.setDouble key value).calls)
  | .clear key => ((s.clear key).self, (s.clear key).calls)

/-- The facade after a sequence of calls made one after the other. -/
def Op.runAll : List Op → Settings → Settings
  | [], s => s
  | op :: rest, s => Op.runAll rest (op.run s).1

/-- Whether the call is `setup` with a non-null delegate. -/
def Op.isSetupWithDelegate : Op → Bool
  | .setup (some _) => true
  | _ => false

/-- Whether the call is `setup`, with any argument. -/
def Op.isSetup : Op → Bool
  | .setup _ => true
  | _ => false

/-- Whether the call is `setup` or `applyDefaultsIfNoDelegatePresent`. -/
def Op.isStartupCall : Op → Bool
  | .setup _ => true
  | .applyDefaultsIfNoDelegatePresent => true
  | _ => false

/-- The call applies the defaults when made on `s`: it takes `mAppliedDefaults` from
false to true and calls `stack::ISettings::applyDefaults`. -/
def Op.appliesDefaults (op : Op) (s : Settings) : Bool :=
  !s.mAppliedDefaults && (op.run s).1.mAppliedDefaults &&
    ((op.run s).2.map Observed.call).contains ExternalCall.stackApplyDefaults

/-! ## Two threads in `applyDefaultsIfNoDelegatePresent`

Each block guarded by an `AutoRecursiveLock` runs atomically with respect to the other
thread, and so does each single external call; between them the threads interleave
freely.  A thread is at one of the following points of `applyDefaultsIfNoDelegatePresent`
and of the `applyDefaults` and `setString` it calls. -/

/-- Where a thread is. -/
inductive PC where
  /-- Before the guarded read of `applyDefaultsIfNoDelegatePresent`. -/
  | guard
  /-- In `applyDefaults`, before the locked write of `mAppliedDefaults`. -/
  | mark
  /-- Before the locked snapshot of the first `setString`. -/
  | setCore
  /-- In the first `setString`, before `delegate->setString`. -/
  | callCore (delegate : ISettingsDelegate)
  /-- Before the locked snapshot of the second `setString`. -/
  | setMedia
  /-- In the second `setString`, before `delegate->setString`. -/
  | callMedia (delegate : ISettingsDelegate)
  /-- Before `stack::ISettings::applyDefaults()`. -/
  | forward
  /-- Returned. -/
  | done

/-- Two threads, named `false` and `true`, sharing one facade; `calls` are the external
calls made so far, each with the thread that made it. -/
structure Race where
  facade : Settings
  pc : Bool → PC
  calls : List (Bool × ExternalCall)

/-- Both threads are about to call `applyDefaultsIfNoDelegatePresent` on `s`. -/
def Race.start (s : Settings) : Race :=
  { facade := s, pc := fun _ => PC.guard, calls := [] }

/-- Thread `t` runs up to its next interleaving point. -/
def Race.step (t : Bool) (c : Race) : Race :=
  match c.pc t with
  | .guard =>
    match c.facade.guardDefaults with
    | (true, s) => { c with facade := s, pc := Function.update c.pc t PC.done }
    | (false, s) => { c with facade := s, pc := Function.update c.pc t PC.mark }
  | .mark =>
    { c with facade := c.facade.markDefaultsApplied, pc := Function.update c.pc t PC.setCore }
  | .setCore =>
    match c.facade.snapshotDelegate with
    | (none, s) => { c with facade := s, pc := Function.update c.pc t PC.setMedia }
    | (some delegate, s) =>
      { c with facade := s, pc := Function.update c.pc t (PC.callCore delegate) }
  | .callCore delegate =>
    { c with
      pc := Function.update c.pc t PC.setMedia
      calls := c.calls ++ [(t, ExternalCall.delegate delegate.id
        (DelegateCall.setString OPENPEER_CORE_SETTING_STACK_CORE_THREAD_PRIORITY "normal"))] }
  | .setMedia =>
    match c.facade.snapshotDelegate with
    | (none, s) => { c with facade := s, pc := Function.update c.pc t PC.forward }
    | (some delegate, s) =>
      { c with facade := s, pc := Function.update c.pc t (PC.callMedia delegate) }
  | .callMedia delegate =>
    { c with
      pc := Function.update c.pc t PC.forward
      calls := c.calls ++ [(t, ExternalCall.delegate delegate.id
        (DelegateCall.setString OPENPEER_CORE_SETTING_STACK_MEDIA_THREAD_PRIORITY "real-time"))] }
  | .forward =>
    { c with
      pc := Function.update c.pc t PC.done
      calls := c.calls ++ [(t, ExternalCall.stackApplyDefaults)] }
  | .done => c

/-- The threads run in the order given by the schedule. -/
def Race.run : List Bool → Race → Race
  | [], c => c
  | t :: rest, c => Race.run rest (Race.step t c)

/-- How often thread `t` has called `stack::ISettings::applyDefaults`. -/
def Race.forwards (t : Bool) (c : Race) : Nat :=
  c.calls.countP (fun e => e.1 == t && e.2 == ExternalCall.stackApplyDefaults)

/-- Whether a thread has returned. -/
def PC.isDone : PC → Bool
  | .done => true
  | _ => false

/-- The external calls of an outcome without the facade snapshots. -/
def Outcome.trace {α : Type} (r : Outcome α) : List ExternalCall :=
  r.calls.map Observed.call

/-! ## Concrete objects used in examples -/

/-- A delegate that answers `"v"` for the string key `"k"` and fixed values otherwise. -/
def delegateA : ISettingsDelegate :=
  { id := 7
    getString := fun key => if key = "k" then "v" else "other"
    getInt := fun _ => -3
    getUInt := fun _ => 4
    getBool := fun _ => true
    getFloat := fun _ => ⟨1065353216⟩
    getDouble := fun _ => ⟨4607182418800017408⟩ }

/-! ## Basic facts about the blocks -/

@[simp] theorem Settings.unlock_lock (s : Settings) : s.lock.unlock = s := by
  cases s
  simp [Settings.lock, Settings.unlock]

@[simp] theorem Settings.snapshotDelegate_eq (s : Settings) :
    s.snapshotDelegate = (s.mDelegate, s) := by
  simp only [Settings.snapshotDelegate, Settings.unlock_lock]
  rfl

@[simp] theorem Settings.markDefaultsApplied_eq (s : Settings) :
    s.markDefaultsApplied = { s with mAppliedDefaults := true } := by
  cases s
  simp [Settings.markDefaultsApplied, Settings.lock, Settings.unlock]

theorem Settings.guardDefaults_eq (s : Settings) :
    s.guardDefaults = (s.mDelegate.isSome || s.mAppliedDefaults, s) := by
  unfold Settings.guardDefaults
  simp only [Settings.unlock_lock]
  have h : s.lock.mDelegate = s.mDelegate ∧ s.lock.mAppliedDefaults = s.mAppliedDefaults :=
    ⟨rfl, rfl⟩
  rw [h.1, h.2]
  cases s.mDelegate.isSome <;> cases s.mAppliedDefaults <;> rfl

theorem Settings.setup_eq (s : Settings) (delegate : Option ISettingsDelegate) :
    s.setup delegate =
      ⟨(), { s with mDelegate := delegate },
        [⟨.stackSetup (if delegate.isSome then s.mThisWeak else none),
          { s with mDelegate := delegate }⟩]⟩ := by
  cases s
  simp [Settings.setup, Settings.lock, Settings.unlock]

/-! ## Getters, setters and `clear` with and without a delegate -/

theorem Settings.getters_of_delegate (s : Settings) (d : ISettingsDelegate)
    (h : s.mDelegate = some d) (key : String) :
    s.getString key = ⟨d.getString key, s, [⟨.delegate d.id (.getString key), s⟩]⟩ ∧
    s.getInt key = ⟨d.getInt key, s, [⟨.delegate d.id (.getInt key), s⟩]⟩ ∧
    s.getUInt key = ⟨d.getUInt key, s, [⟨.delegate d.id (.getUInt key), s⟩]⟩ ∧
    s.getBool key = ⟨d.getBool key, s, [⟨.delegate d.id (.getBool key), s⟩]⟩ ∧
    s.getFloat key = ⟨d.getFloat key, s, [⟨.delegate d.id (.getFloat key), s⟩]⟩ ∧
    s.getDouble key = ⟨d.getDouble key, s, [⟨.delegate d.id (.getDouble key), s⟩]⟩ := by
  simp [Settings.getString, Settings.getInt, Settings.getUInt, Settings.getBool,
    Settings.getFloat, Settings.getDouble, h]

theorem Settings.setters_of_delegate (s : Settings) (d : ISettingsDelegate)
    (h : s.mDelegate = some d) (key : String) :
    (∀ v, s.setString key v = ⟨(), s, [⟨.delegate d.id (.setString key v), s⟩]⟩) ∧
    (∀ v, s.setInt key v = ⟨(), s, [⟨.delegate d.id (.setInt key v), s⟩]⟩) ∧
    (∀ v, s.setUInt key v = ⟨(), s, [⟨.delegate d.id (.setUInt key v), s⟩]⟩) ∧
    (∀ v, s.setBool key v = ⟨(), s, [⟨.delegate d.id (.setBool key v), s⟩]⟩) ∧
    (∀ v, s.setFloat key v = ⟨(), s, [⟨.delegate d.id (.setFloat key v), s⟩]⟩) ∧
    (∀ v, s.setDouble key v = ⟨(), s, [⟨.delegate d.id (.setDouble key v), s⟩]⟩) ∧
    s.clear key = ⟨(), s, [⟨.delegate d.id (.clear key), s⟩]⟩ := by
  simp [Settings.setString, Settings.setInt, Settings.setUInt, Settings.setBool,
    Settings.setFloat, Settings.setDouble, Settings.clear, h]

theorem Settings.getters_of_no_delegate (s : Settings) (h : s.mDelegate = none)
    (key : String) :
    s.getString key = ⟨"", s, []⟩ ∧
    s.getInt key = ⟨0, s, []⟩ ∧
    s.getUInt key = ⟨0, s, []⟩ ∧
    s.getBool key = ⟨false, s, []⟩ ∧
    s.getFloat key = ⟨CFloat.zero, s, []⟩ ∧
    s.getDouble key = ⟨CDouble.zero, s, []⟩ := by
  simp [Settings.getString, Settings.getInt, Settings.getUInt, Settings.getBool,
    Settings.getFloat, Settings.getDouble, h]

theorem Settings.setters_of_no_delegate (s : Settings) (h : s.mDelegate = none)
    (key : String) :
    (∀ v, s.setString key v = ⟨(), s, []⟩) ∧
    (∀ v, s.setInt key v = ⟨(), s, []⟩) ∧
    (∀ v, s.setUInt key v = ⟨(), s, []⟩) ∧
    (∀ v, s.setBool key v = ⟨(), s, []⟩) ∧
    (∀ v, s.setFloat key v = ⟨(), s, []⟩) ∧
    (∀ v, s.setDouble key v = ⟨(), s, []⟩) ∧
    s.clear key = ⟨(), s, []⟩ := by
  simp [Settings.setString, Settings.setInt, Settings.setUInt, Settings.setBool,
    Settings.setFloat, Settings.setDouble, Settings.clear, h]

/-- Getters, setters and `clear` hand the facade back as they found it. -/
theorem Settings.accessors_self (s : Settings) (key : String) :
    (s.getString key).self = s ∧ (s.getInt key).self = s ∧ (s.getUInt key).self = s ∧
    (s.getBool key).self = s ∧ (s.getFloat key).self = s ∧ (s.getDouble key).self = s ∧
    (∀ v, (s.setString key v).self = s) ∧ (∀ v, (s.setInt key v).self = s) ∧
    (∀ v, (s.setUInt key v).self = s) ∧ (∀ v, (s.setBool key v).self = s) ∧
    (∀ v, (s.setFloat key v).self = s) ∧ (∀ v, (s.setDouble key v).self = s) ∧
    (s.clear key).self = s := by
  cases h : s.mDelegate with
  | none =>
    have g := Settings.getters_of_no_delegate s h key
    have t := Settings.setters_of_no_delegate s h key
    simp [g.1, g.2.1, g.2.2.1, g.2.2.2.1, g.2.2.2.2.1, g.2.2.2.2.2,
      t.1, t.2.1, t.2.2.1, t.2.2.2.1, t.2.2.2.2.1, t.2.2.2.2.2.1, t.2.2.2.2.2.2]
  | some d =>
    have g := Settings.getters_of_delegate s d h key
    have t := Settings.setters_of_delegate s d h key
    simp [g.1, g.2.1, g.2.2.1, g.2.2.2.1, g.2.2.2.2.1, g.2.2.2.2.2,
      t.1, t.2.1, t.2.2.1, t.2.2.2.1, t.2.2.2.2.1, t.2.2.2.2.2.1, t.2.2.2.2.2.2]

/-- `applyDefaults` only touches `mAppliedDefaults`. -/
theorem Settings.applyDefaults_self (s : Settings) :
    s.applyDefaults.self = { s with mAppliedDefaults := true } := by
  unfold Settings.applyDefaults
  simp only [Settings.markDefaultsApplied_eq]
  have h1 := (Settings.accessors_self { s with mAppliedDefaults := true }
    OPENPEER_CORE_SETTING_STACK_CORE_THREAD_PRIORITY).2.2.2.2.2.2.1 "normal"
  have h2 := (Settings.accessors_self { s with mAppliedDefaults := true }
    OPENPEER_CORE_SETTING_STACK_MEDIA_THREAD_PRIORITY).2.2.2.2.2.2.1 "real-time"
  simp only [h1, h2]

/-- The guard of `applyDefaultsIfNoDelegatePresent`, as a case split. -/
theorem Settings.applyDefaultsIfNoDelegatePresent_eq (s : Settings) :
    s.applyDefaultsIfNoDelegatePresent =
      if s.mDelegate.isSome || s.mAppliedDefaults then ⟨(), s, []⟩ else s.applyDefaults := by
  unfold Settings.applyDefaultsIfNoDelegatePresent
  rw [Settings.guardDefaults_eq]
  cases s.mDelegate.isSome || s.mAppliedDefaults <;> rfl

/-- A call other than `setup` leaves every member but `mAppliedDefaults` alone. -/
theorem Op.run_frame (op : Op) (h : op.isSetup = false) (s : Settings) :
    (op.run s).1 = { s with mAppliedDefaults := (op.run s).1.mAppliedDefaults } := by
  have a := fun key => Settings.accessors_self s key
  cases op with
  | setup d => simp [Op.isSetup] at h
  | applyDefaults => simp [Op.run, Settings.applyDefaults_self]
  | applyDefaultsIfNoDelegatePresent =>
    simp only [Op.run, Settings.applyDefaultsIfNoDelegatePresent_eq]
    split <;> simp [Settings.applyDefaults_self]
  | getString key => simp [Op.run, (a key).1]
  | getInt key => simp [Op.run, (a key).2.1]
  | getUInt key => simp [Op.run, (a key).2.2.1]
  | getBool key => simp [Op.run, (a key).2.2.2.1]
  | getFloat key => simp [Op.run, (a key).2.2.2.2.1]
  | getDouble key => simp [Op.run, (a key).2.2.2.2.2.1]
  | setString key v => simp [Op.run, (a key).2.2.2.2.2.2.1]
  | setInt key v => simp [Op.run, (a key).2.2.2.2.2.2.2.1]
  | setUInt key v => simp [Op.run, (a key).2.2.2.2.2.2.2.2.1]
  | setBool key v => simp [Op.run, (a key).2.2.2.2.2.2.2.2.2.1]
  | setFloat key v => simp [Op.run, (a key).2.2.2.2.2.2.2.2.2.2.1]
  | setDouble key v => simp [Op.run, (a key).2.2.2.2.2.2.2.2.2.2.2.1]
  | clear key => simp [Op.run, (a key).2.2.2.2.2.2.2.2.2.2.2.2]

/-- Calls other than `setup` do not change the stored delegate. -/
theorem Op.runAll_delegate (ops : List Op) (h : ops.all (fun op => !op.isSetup) = true)
    (s : Settings) : (Op.runAll ops s).mDelegate = s.mDelegate := by
  induction ops generalizing s with
  | nil => rfl
  | cons op rest ih =>
    simp only [List.all_cons, Bool.and_eq_true, Bool.not_eq_true'] at h
    simp only [Op.runAll]
    rw [ih h.2, Op.run_frame op h.1 s]

/-! ## C1: with a delegate, every accessor forwards -/

/-- C1: let `setup(d)` with a non-null delegate `d` be the last `setup` call on a facade,
followed by any calls other than `setup`.  Then every typed getter returns what the getter
of `d` of the same type returns for the key, and every typed setter makes exactly one
external call, the setter of `d` of the same type with the same key and value, and hands
the facade back unchanged (stored delegate and `mAppliedDefaults` included). -/
theorem C1_accessors_forward_to_delegate (s0 : Settings) (d : ISettingsDelegate)
    (ops : List Op) (hops : ops.all (fun op => !op.isSetup) = true)
    (s : Settings) (hs : s = Op.runAll ops (s0.setup (some d)).self) (key : String) :
    ((s.getString key).ret = d.getString key ∧
      (s.getInt key).ret = d.getInt key ∧
      (s.getUInt key).ret = d.getUInt key ∧
      (s.getBool key).ret = d.getBool key ∧
      (s.getFloat key).ret = d.getFloat key ∧
      (s.getDouble key).ret = d.getDouble key) ∧
    (∀ v, (s.setString key v).trace = [.delegate d.id (.setString key v)] ∧
      (s.setString key v).self = s) ∧
    (∀ v, (s.setInt key v).trace = [.delegate d.id (.setInt key v)] ∧
      (s.setInt key v).self = s) ∧
    (∀ v, (s.setUInt key v).trace = [.delegate d.id (.setUInt key v)] ∧
      (s.setUInt key v).self = s) ∧
    (∀ v, (s.setBool key v).trace = [.delegate d.id (.setBool key v)] ∧
      (s.setBool key v).self = s) ∧
    (∀ v, (s.setFloat key v).trace = [.delegate d.id (.setFloat key v)] ∧
      (s.setFloat key v).self = s) ∧
    (∀ v, (s.setDouble key v).trace = [.delegate d.id (.setDouble key v)] ∧
      (s.setDouble key v).self = s) := by
  have hd : s.mDelegate = some d := by
    rw [hs, Op.runAll_delegate ops hops, Settings.setup_eq]
  have g := Settings.getters_of_delegate s d hd key
  have t := Settings.setters_of_delegate s d hd key
  refine ⟨⟨?_, ?_, ?_, ?_, ?_, ?_⟩, ?_, ?_, ?_, ?_, ?_, ?_⟩
  · rw [g.1]
  · rw [g.2.1]
  · rw [g.2.2.1]
  · rw [g.2.2.2.1]
  · rw [g.2.2.2.2.1]
  · rw [g.2.2.2.2.2]
  · intro v; rw [t.1]; exact ⟨rfl, rfl⟩
  · intro v; rw [t.2.1]; exact ⟨rfl, rfl⟩
  · intro v; rw [t.2.2.1]; exact ⟨rfl, rfl⟩
  · intro v; rw [t.2.2.2.1]; exact ⟨rfl, rfl⟩
  · intro v; rw [t.2.2.2.2.1]; exact ⟨rfl, rfl⟩
  · intro v; rw [t.2.2.2.2.2.1]; exact ⟨rfl, rfl⟩

/-- The scenario of the specification: `setup(delegateA)`, some calls that are not `setup`,
then `getString("k")` returns `"v"`. -/
theorem C1_accessors_forward_to_delegate_witness :
    [Op.applyDefaultsIfNoDelegatePresent, Op.setInt "n" 5].all (fun op => !op.isSetup) = true ∧
    (Settings.getString
      (Op.runAll [Op.applyDefaultsIfNoDelegatePresent, Op.setInt "n" 5]
        ((Settings.create 1).setup (some delegateA)).self) "k").ret = delegateA.getString "k" ∧
    delegateA.getString "k" = "v" :=
  ⟨rfl, (C1_accessors_forward_to_delegate (Settings.create 1) delegateA
      [Op.applyDefaultsIfNoDelegatePresent, Op.setInt "n" 5] rfl _ rfl "k").1.1, by decide⟩

/-! ## C2: without a delegate, getters give zero values and setters do nothing -/

/-- C2: a facade made by `create()` and a facade after `setup(null)` have no delegate; and
on every facade without a delegate `getString` returns the empty string, `getInt` and
`getUInt` return 0, `getBool` returns false, `getFloat` and `getDouble` return 0.0, and
every typed setter and `clear` return normally having made no external call (none to a
delegate, none to the lower layer) and leaving the facade as it was. -/
theorem C2_no_delegate_zero_values_and_noops (s : Settings) (h : s.mDelegate = none)
    (key : String) :
    (∀ id, (Settings.create id).mDelegate = none) ∧
    (∀ s0 : Settings, (s0.setup none).self.mDelegate = none) ∧
    (s.getString key).ret = "" ∧
    (s.getInt key).ret = 0 ∧
    (s.getUInt key).ret = 0 ∧
    (s.getBool key).ret = false ∧
    (s.getFloat key).ret = CFloat.zero ∧
    (s.getDouble key).ret = CDouble.zero ∧
    (∀ v, s.setString key v = ⟨(), s, []⟩) ∧
    (∀ v, s.setInt key v = ⟨(), s, []⟩) ∧
    (∀ v, s.setUInt key v = ⟨(), s, []⟩) ∧
    (∀ v, s.setBool key v = ⟨(), s, []⟩) ∧
    (∀ v, s.setFloat key v = ⟨(), s, []⟩) ∧
    (∀ v, s.setDouble key v = ⟨(), s, []⟩) ∧
    s.clear key = ⟨(), s, []⟩ := by
  have g := Settings.getters_of_no_delegate s h key
  refine ⟨fun _ => rfl, fun s0 => by rw [Settings.setup_eq], ?_, ?_, ?_, ?_, ?_, ?_,
    Settings.setters_of_no_delegate s h key⟩
  · rw [g.1]
  · rw [g.2.1]
  · rw [g.2.2.1]
  · rw [g.2.2.2.1]
  · rw [g.2.2.2.2.1]
  · rw [g.2.2.2.2.2]

/-- On a facade whose delegate was removed by `setup(null)`, `getInt("k")` is 0 and
`setBool("k", true)` does nothing. -/
theorem C2_no_delegate_zero_values_and_noops_witness :
    (((Settings.create 1).setup (some delegateA)).self.setup none).self.mDelegate = none ∧
    ((((Settings.create 1).setup (some delegateA)).self.setup none).self.getInt "k").ret = 0 ∧
    ((((Settings.create 1).setup (some delegateA)).self.setup none).self.setBool "k" true).calls
      = [] :=
  ⟨rfl,
   (C2_no_delegate_zero_values_and_noops
      (((Settings.create 1).setup (some delegateA)).self.setup none).self rfl "k").2.2.2.1,
   congrArg Outcome.calls
     ((C2_no_delegate_zero_values_and_noops
      (((Settings.create 1).setup (some delegateA)).self.setup none).self rfl
        "k").2.2.2.2.2.2.2.2.2.2.2.1 true)⟩

/-! ## C3: the guard of `applyDefaultsIfNoDelegatePresent` -/

/-- On a facade without a delegate, `applyDefaultsIfNoDelegatePresent` leaves
`mAppliedDefaults` true. -/
theorem Settings.applyDefaultsIfNoDelegatePresent_applied (s : Settings)
    (h : s.mDelegate = none) :
    s.applyDefaultsIfNoDelegatePresent.self.mAppliedDefaults = true := by
  rw [Settings.applyDefaultsIfNoDelegatePresent_eq]
  cases ha : s.mAppliedDefaults
  · simp [h, ha, Settings.applyDefaults_self]
  · simp [h, ha]

/-- C3: when a delegate is stored or `mAppliedDefaults` is already true,
`applyDefaultsIfNoDelegatePresent()` changes nothing in the facade and makes no external
call at all (no setter of a delegate, no request to the lower layer).  In particular, on a
facade `s0` without a delegate, the second of two calls is such a no-op, both when it
follows the first directly and when `setup(d)`, with any `d`, was called in between. -/
theorem C3_applyDefaultsIfNoDelegatePresent_noop (s : Settings)
    (h : s.mDelegate.isSome = true ∨ s.mAppliedDefaults = true)
    (s0 : Settings) (h0 : s0.mDelegate = none) (d : Option ISettingsDelegate) :
    s.applyDefaultsIfNoDelegatePresent = ⟨(), s, []⟩ ∧
    s0.applyDefaultsIfNoDelegatePresent.self.applyDefaultsIfNoDelegatePresent
        = ⟨(), s0.applyDefaultsIfNoDelegatePresent.self, []⟩ ∧
    (s0.applyDefaultsIfNoDelegatePresent.self.setup d).self.applyDefaultsIfNoDelegatePresent
        = ⟨(), (s0.applyDefaultsIfNoDelegatePresent.self.setup d).self, []⟩ := by
  have key : ∀ t : Settings, (t.mDelegate.isSome || t.mAppliedDefaults) = true →
      t.applyDefaultsIfNoDelegatePresent = ⟨(), t, []⟩ := by
    intro t ht
    rw [Settings.applyDefaultsIfNoDelegatePresent_eq, if_pos ht]
  have h1 := Settings.applyDefaultsIfNoDelegatePresent_applied s0 h0
  refine ⟨key s (by simpa using h), key _ (by simp [h1]), key _ ?_⟩
  rw [Settings.setup_eq]
  simp [h1]

/-- A facade made by `create()` has no delegate; after one
`applyDefaultsIfNoDelegatePresent()` and `setup(delegateA)` a delegate is stored, and a
further `applyDefaultsIfNoDelegatePresent()` makes no external call. -/
theorem C3_applyDefaultsIfNoDelegatePresent_noop_witness :
    ((((Settings.create 1).applyDefaultsIfNoDelegatePresent.self.setup
        (some delegateA)).self.mDelegate.isSome = true ∨
      ((Settings.create 1).applyDefaultsIfNoDelegatePresent.self.setup
        (some delegateA)).self.mAppliedDefaults = true) ∧
      (Settings.create 1).mDelegate = none) ∧
    (((Settings.create 1).applyDefaultsIfNoDelegatePresent.self.setup
        (some delegateA)).self.applyDefaultsIfNoDelegatePresent).calls = [] :=
  ⟨⟨Or.inl rfl, rfl⟩,
   congrArg Outcome.calls
    (C3_applyDefaultsIfNoDelegatePresent_noop
      ((Settings.create 1).applyDefaultsIfNoDelegatePresent.self.setup (some delegateA)).self
      (Or.inl rfl) (Settings.create 1) rfl none).1⟩

/-! ## C4: removing the delegate again -/

/-- C4: after `setup(d)` with a non-null `d` followed by `setup(null)` no delegate is
stored and `mAppliedDefaults` has the value it had before the two calls; every typed
getter returns the zero value of its type and every setter does nothing, none of them
making any external call (so `d` is not called). -/
theorem C4_setup_null_detaches (s : Settings) (d : ISettingsDelegate) (key : String) :
    ((s.setup (some d)).self.setup none).self.mDelegate = none ∧
    ((s.setup (some d)).self.setup none).self.mAppliedDefaults = s.mAppliedDefaults ∧
    ((s.setup (some d)).self.setup none).self.getString key
      = ⟨"", ((s.setup (some d)).self.setup none).self, []⟩ ∧
    ((s.setup (some d)).self.setup none).self.getInt key
      = ⟨0, ((s.setup (some d)).self.setup none).self, []⟩ ∧
    ((s.setup (some d)).self.setup none).self.getUInt key
      = ⟨0, ((s.setup (some d)).self.setup none).self, []⟩ ∧
    ((s.setup (some d)).self.setup none).self.getBool key
      = ⟨false, ((s.setup (some d)).self.setup none).self, []⟩ ∧
    ((s.setup (some d)).self.setup none).self.getFloat key
      = ⟨CFloat.zero, ((s.setup (some d)).self.setup none).self, []⟩ ∧
    ((s.setup (some d)).self.setup none).self.getDouble key
      = ⟨CDouble.zero, ((s.setup (some d)).self.setup none).self, []⟩ ∧
    (∀ v, ((s.setup (some d)).self.setup none).self.setString key v
      = ⟨(), ((s.setup (some d)).self.setup none).self, []⟩) ∧
    (∀ v, ((s.setup (some d)).self.setup none).self.setInt key v
      = ⟨(), ((s.setup (some d)).self.setup none).self, []⟩) ∧
    (∀ v, ((s.setup (some d)).self.setup none).self.setUInt key v
      = ⟨(), ((s.setup (some d)).self.setup none).self, []⟩) ∧
    (∀ v, ((s.setup (some d)).self.setup none).self.setBool key v
      = ⟨(), ((s.setup (some d)).self.setup none).self, []⟩) ∧
    (∀ v, ((s.setup (some d)).self.setup none).self.setFloat key v
      = ⟨(), ((s.setup (some d)).self.setup none).self, []⟩) ∧
    (∀ v, ((s.setup (some d)).self.setup none).self.setDouble key v
      = ⟨(), ((s.setup (some d)).self.setup none).self, []⟩) := by
  have hd : ((s.setup (some d)).self.setup none).self.mDelegate = none := by
    rw [Settings.setup_eq]
  have ha : ((s.setup (some d)).self.setup none).self.mAppliedDefaults
      = s.mAppliedDefaults := by
    rw [Settings.setup_eq, Settings.setup_eq]
  have g := Settings.getters_of_no_delegate _ hd key
  have t := Settings.setters_of_no_delegate _ hd key
  exact ⟨hd, ha, g.1, g.2.1, g.2.2.1, g.2.2.2.1, g.2.2.2.2.1, g.2.2.2.2.2,
    t.1, t.2.1, t.2.2.1, t.2.2.2.1, t.2.2.2.2.1, t.2.2.2.2.2.1⟩

/-! ## C5: what `applyDefaults` does -/

/-- C5: `applyDefaults()` leaves `mAppliedDefaults` true and the stored delegate as it
was.  Its external calls are those of the facade's own
`setString(core thread priority key, "normal")`, then those of
`setString(media thread priority key, "real-time")`, both made on the facade with the
flag already set, and after them one `stack::ISettings::applyDefaults()`.  With a delegate
`d` stored these are exactly the two `setString` calls on `d`, in this order, and the
forward; with none stored the forward is the only external call.  Hence on a facade made by
`create()` one `applyDefaultsIfNoDelegatePresent()` leaves `mAppliedDefaults` true and has
called no delegate. -/
theorem C5_applyDefaults_effect (s : Settings) (d : ISettingsDelegate) (id : PUID) :
    s.applyDefaults.self.mAppliedDefaults = true ∧
    s.applyDefaults.self.mDelegate = s.mDelegate ∧
    s.applyDefaults.calls =
      (Settings.setString { s with mAppliedDefaults := true }
          OPENPEER_CORE_SETTING_STACK_CORE_THREAD_PRIORITY "normal").calls ++
        (Settings.setString { s with mAppliedDefaults := true }
          OPENPEER_CORE_SETTING_STACK_MEDIA_THREAD_PRIORITY "real-time").calls ++
        [⟨.stackApplyDefaults, { s with mAppliedDefaults := true }⟩] ∧
    (Settings.applyDefaults { s with mDelegate := some d }).trace =
      [.delegate d.id (.setString OPENPEER_CORE_SETTING_STACK_CORE_THREAD_PRIORITY "normal"),
       .delegate d.id (.setString OPENPEER_CORE_SETTING_STACK_MEDIA_THREAD_PRIORITY "real-time"),
       .stackApplyDefaults] ∧
    (Settings.applyDefaults { s with mDelegate := none }).trace = [.stackApplyDefaults] ∧
    (Settings.create id).applyDefaultsIfNoDelegatePresent.self.mAppliedDefaults = true ∧
    (Settings.create id).applyDefaultsIfNoDelegatePresent.trace = [.stackApplyDefaults] := by
  have hself := Settings.applyDefaults_self s
  have hcalls : ∀ t : Settings, t.applyDefaults.calls =
      (Settings.setString { t with mAppliedDefaults := true }
          OPENPEER_CORE_SETTING_STACK_CORE_THREAD_PRIORITY "normal").calls ++
        (Settings.setString { t with mAppliedDefaults := true }
          OPENPEER_CORE_SETTING_STACK_MEDIA_THREAD_PRIORITY "real-time").calls ++
        [⟨.stackApplyDefaults, { t with mAppliedDefaults := true }⟩] := by
    intro t
    have h1 := (Settings.accessors_self { t with mAppliedDefaults := true }
      OPENPEER_CORE_SETTING_STACK_CORE_THREAD_PRIORITY).2.2.2.2.2.2.1 "normal"
    have h2 := (Settings.accessors_self { t with mAppliedDefaults := true }
      OPENPEER_CORE_SETTING_STACK_MEDIA_THREAD_PRIORITY).2.2.2.2.2.2.1 "real-time"
    unfold Settings.applyDefaults
    simp only [Settings.markDefaultsApplied_eq, h1, h2]
  refine ⟨by rw [hself], by rw [hself], hcalls s, ?_, ?_, rfl, rfl⟩
  · unfold Outcome.trace
    rw [hcalls]
    have t1 := (Settings.setters_of_delegate
      { s with mDelegate := some d, mAppliedDefaults := true } d rfl
      OPENPEER_CORE_SETTING_STACK_CORE_THREAD_PRIORITY).1 "normal"
    have t2 := (Settings.setters_of_delegate
      { s with mDelegate := some d, mAppliedDefaults := true } d rfl
      OPENPEER_CORE_SETTING_STACK_MEDIA_THREAD_PRIORITY).1 "real-time"
    simp only [t1, t2]
    rfl
  · unfold Outcome.trace
    rw [hcalls]
    have t1 := (Settings.setters_of_no_delegate
      { s with mDelegate := none, mAppliedDefaults := true } rfl
      OPENPEER_CORE_SETTING_STACK_CORE_THREAD_PRIORITY).1 "normal"
    have t2 := (Settings.setters_of_no_delegate
      { s with mDelegate := none, mAppliedDefaults := true } rfl
      OPENPEER_CORE_SETTING_STACK_MEDIA_THREAD_PRIORITY).1 "real-time"
    simp only [t1, t2]
    rfl

/-! ## C6: what `setup` does -/

/-- Every call keeps the identity and the weak self reference of the facade. -/
theorem Op.run_identity (op : Op) (s : Settings) :
    (op.run s).1.mID = s.mID ∧ (op.run s).1.mThisWeak = s.mThisWeak := by
  cases hop : op.isSetup
  · rw [Op.run_frame op hop s]
    exact ⟨rfl, rfl⟩
  · cases op <;> simp [Op.isSetup] at hop
    simp [Op.run, Settings.setup_eq]

/-- On every facade reached from `create()` the weak self reference names the facade. -/
theorem Op.runAll_thisWeak (ops : List Op) (s : Settings) (h : s.mThisWeak = some s.mID) :
    (Op.runAll ops s).mThisWeak = some (Op.runAll ops s).mID := by
  induction ops generalizing s with
  | nil => exact h
  | cons op rest ih =>
    simp only [Op.runAll]
    apply ih
    rw [(Op.run_identity op s).1, (Op.run_identity op s).2]
    exact h

/-- C6: on a facade whose weak self reference names the facade itself (as on every facade
reached from `create()` by member function calls), `setup(d)` stores `d`, leaves
`mAppliedDefaults` as it was, and makes exactly one external call:
`stack::ISettings::setup`, with the facade itself as argument when `d` is non-null and
with null when `d` is null.  At the moment of that call the facade already stores `d` and
the lock taken by `setup` has been released again (its depth is back at the value on
entry).  The static `ISettings::setup` does the same on the singleton. -/
theorem C6_setup_effect (s : Settings) (hw : s.mThisWeak = some s.mID)
    (x : ISettingsDelegate) (d : Option ISettingsDelegate) :
    (∀ id ops, (Op.runAll ops (Settings.create id)).mThisWeak
      = some (Op.runAll ops (Settings.create id)).mID) ∧
    (s.setup d).self.mDelegate = d ∧
    (s.setup d).self.mAppliedDefaults = s.mAppliedDefaults ∧
    (s.setup (some x)).trace = [.stackSetup (some s.mID)] ∧
    (s.setup none).trace = [.stackSetup none] ∧
    (s.setup d).calls.map (fun o => o.facade.mDelegate) = [d] ∧
    (s.setup d).calls.map (fun o => o.facade.mLock) = [s.mLock] ∧
    (s.setup d).calls.map Observed.facade = [(s.setup d).self] ∧
    ISettings.setup (some s) d = (some (s.setup d).self, (s.setup d).calls) := by
  refine ⟨fun id ops => Op.runAll_thisWeak ops _ rfl, ?_, ?_, ?_, ?_, ?_, ?_, ?_, rfl⟩
  · rw [Settings.setup_eq]
  · rw [Settings.setup_eq]
  · simp [Outcome.trace, Settings.setup_eq, hw]
  · simp [Outcome.trace, Settings.setup_eq]
  · simp [Settings.setup_eq]
  · simp [Settings.setup_eq]
  · simp [Settings.setup_eq]

/-- On a facade made by `create()`, `setup(delegateA)` notifies the lower layer with the
facade itself, identified by its `mID`. -/
theorem C6_setup_effect_witness :
    (Settings.create 1).mThisWeak = some (Settings.create 1).mID ∧
    ((Settings.create 1).setup (some delegateA)).trace = [.stackSetup (some 1)] :=
  ⟨rfl, (C6_setup_effect (Settings.create 1) rfl delegateA none).2.2.2.1⟩

/-! ## C7: `applyDefaults` does not look at the flag -/

/-- C7 as stated fails: on the facade reached by `create()`, `setup(delegateA)`,
`applyDefaults()` the flag `mAppliedDefaults` is true, and a further `applyDefaults()`
writes both default keys to the delegate again and forwards to the lower layer again. -/
theorem C7_counterexample :
    (((Settings.create 1).setup (some delegateA)).self.applyDefaults.self).mAppliedDefaults
      = true ∧
    (((Settings.create 1).setup (some delegateA)).self.applyDefaults.self).applyDefaults.trace =
      [.delegate delegateA.id
         (.setString OPENPEER_CORE_SETTING_STACK_CORE_THREAD_PRIORITY "normal"),
       .delegate delegateA.id
         (.setString OPENPEER_CORE_SETTING_STACK_MEDIA_THREAD_PRIORITY "real-time"),
       .stackApplyDefaults] ∧
    (ISettings.applyDefaults
      (some (((Settings.create 1).setup (some delegateA)).self.applyDefaults.self))).2.length
      = 3 := by
  decide

/-- C7, amended: the flag prevents redundant work and redundant forwarding in
`applyDefaultsIfNoDelegatePresent()` only.  On every facade whose `mAppliedDefaults` is
already true, `applyDefaultsIfNoDelegatePresent()` makes no external call and changes
nothing, whereas `applyDefaults()`, which is what the static `ISettings::applyDefaults()`
calls on the singleton, never reads the flag: it makes the same external calls as on the
same facade with the flag false, and the last of them is the forward to the lower layer. -/
theorem C7_flag_guards_only_conditional_apply (s : Settings) (h : s.mAppliedDefaults = true) :
    s.applyDefaultsIfNoDelegatePresent = ⟨(), s, []⟩ ∧
    s.applyDefaults.calls = (Settings.applyDefaults { s with mAppliedDefaults := false }).calls ∧
    s.applyDefaults.self = (Settings.applyDefaults { s with mAppliedDefaults := false }).self ∧
    s.applyDefaults.trace.getLast? = some .stackApplyDefaults ∧
    ISettings.applyDefaults (some s) = (some s.applyDefaults.self, s.applyDefaults.calls) := by
  refine ⟨?_, ?_, ?_, ?_, rfl⟩
  · rw [Settings.applyDefaultsIfNoDelegatePresent_eq, h]
    simp
  · unfold Settings.applyDefaults
    simp only [Settings.markDefaultsApplied_eq]
  · rw [Settings.applyDefaults_self, Settings.applyDefaults_self]
  · simp [Outcome.trace, Settings.applyDefaults]

/-- After one `applyDefaults()` on a fresh facade the flag is set, and a second
`applyDefaults()` still ends with the forward to the lower layer. -/
theorem C7_flag_guards_only_conditional_apply_witness :
    (Settings.create 1).applyDefaults.self.mAppliedDefaults = true ∧
    (Settings.create 1).applyDefaults.self.applyDefaults.trace.getLast?
      = some .stackApplyDefaults :=
  ⟨rfl, (C7_flag_guards_only_conditional_apply
    (Settings.create 1).applyDefaults.self rfl).2.2.2.1⟩

/-! ## C8: the guard looks at the delegate stored now, not at earlier ones -/

/-- C8 as stated fails: after `create()`, `setup(delegateA)`, `setup(null)` the call
`applyDefaultsIfNoDelegatePresent()` applies the defaults although an earlier call in the
sequence was a `setup` with a non-null delegate. -/
theorem C8_counterexample :
    ([Op.setup (some delegateA), Op.setup none, Op.applyDefaultsIfNoDelegatePresent].all
      Op.isStartupCall = true) ∧
    Op.appliesDefaults Op.applyDefaultsIfNoDelegatePresent
      (Op.runAll [Op.setup (some delegateA), Op.setup none] (Settings.create 1)) = true ∧
    [Op.setup (some delegateA), Op.setup none].any Op.isSetupWithDelegate = true := by
  decide

/-- Only `applyDefaultsIfNoDelegatePresent`, among it and `setup`, can apply the defaults,
and it does so only with no delegate stored. -/
theorem Op.appliesDefaults_startup (op : Op) (s : Settings)
    (hop : op.isStartupCall = true) (h : op.appliesDefaults s = true) :
    s.mDelegate = none := by
  unfold Op.appliesDefaults at h
  simp only [Bool.and_eq_true, Bool.not_eq_true'] at h
  obtain ⟨⟨h1, h2⟩, -⟩ := h
  cases op <;> simp [Op.isStartupCall] at hop
  · simp [Op.run, Settings.setup_eq, h1] at h2
  · simp only [Op.run, Settings.applyDefaultsIfNoDelegatePresent_eq] at h2
    cases hd : s.mDelegate with
    | none => rfl
    | some x => simp [hd, h1] at h2

/-- C8, amended: default application is performed only while no delegate is installed.
For every finite sequence of `setup(d)` and `applyDefaultsIfNoDelegatePresent()` calls
applied in order to a facade made by `create()`: if some call in the sequence applies the
defaults (takes `mAppliedDefaults` from false to true and forwards to the lower layer),
then the facade stores no delegate when that call is made, that is, the most recent
earlier `setup` call, if there is one, was `setup(null)`.  Earlier `setup` calls with a
non-null delegate that was removed again do not prevent it. -/
theorem C8_defaults_applied_only_without_current_delegate (id : PUID) (pre : List Op)
    (op : Op) (hseq : (pre ++ [op]).all Op.isStartupCall = true)
    (h : op.appliesDefaults (Op.runAll pre (Settings.create id)) = true) :
    (Op.runAll pre (Settings.create id)).mDelegate = none ∧
    (∀ (before after : List Op) (d : Option ISettingsDelegate),
      pre = before ++ Op.setup d :: after → after.all (fun o => !o.isSetup) = true →
      d = none) := by
  have hop : op.isStartupCall = true := by
    simp only [List.all_append, List.all_cons, List.all_nil, Bool.and_true,
      Bool.and_eq_true] at hseq
    exact hseq.2
  have hnone := Op.appliesDefaults_startup op _ hop h
  refine ⟨hnone, ?_⟩
  intro before after d hpre hafter
  have hrun : ∀ (l1 l2 : List Op) (s : Settings),
      Op.runAll (l1 ++ l2) s = Op.runAll l2 (Op.runAll l1 s) := by
    intro l1
    induction l1 with
    | nil => intro l2 s; rfl
    | cons a l ih => intro l2 s; exact ih l2 _
  rw [hpre, hrun] at hnone
  simp only [Op.runAll] at hnone
  rw [Op.runAll_delegate after hafter] at hnone
  simpa [Op.run, Settings.setup_eq] using hnone

/-- On a fresh facade, after `setup(delegateA)` and `setup(null)`,
`applyDefaultsIfNoDelegatePresent()` applies the defaults, and no delegate is stored at
that moment. -/
theorem C8_defaults_applied_only_without_current_delegate_witness :
    (([Op.setup (some delegateA), Op.setup none] ++
        [Op.applyDefaultsIfNoDelegatePresent]).all Op.isStartupCall = true ∧
      Op.appliesDefaults Op.applyDefaultsIfNoDelegatePresent
        (Op.runAll [Op.setup (some delegateA), Op.setup none] (Settings.create 1)) = true) ∧
    (Op.runAll [Op.setup (some delegateA), Op.setup none] (Settings.create 1)).mDelegate
      = none :=
  ⟨⟨by decide, by decide⟩,
   (C8_defaults_applied_only_without_current_delegate 1
      [Op.setup (some delegateA), Op.setup none] Op.applyDefaultsIfNoDelegatePresent
      (by decide) (by decide)).1⟩

/-! ## C9: `mAppliedDefaults` never goes back to false -/

/-- One call keeps a set flag set. -/
theorem Op.run_applied (op : Op) (s : Settings) (h : s.mAppliedDefaults = true) :
    (op.run s).1.mAppliedDefaults = true := by
  have a := fun key => Settings.accessors_self s key
  cases op with
  | setup d => simp [Op.run, Settings.setup_eq, h]
  | applyDefaults => simp [Op.run, Settings.applyDefaults_self]
  | applyDefaultsIfNoDelegatePresent =>
    simp [Op.run, Settings.applyDefaultsIfNoDelegatePresent_eq, h]
  | getString key => simp [Op.run, (a key).1, h]
  | getInt key => simp [Op.run, (a key).2.1, h]
  | getUInt key => simp [Op.run, (a key).2.2.1, h]
  | getBool key => simp [Op.run, (a key).2.2.2.1, h]
  | getFloat key => simp [Op.run, (a key).2.2.2.2.1, h]
  | getDouble key => simp [Op.run, (a key).2.2.2.2.2.1, h]
  | setString key v => simp [Op.run, (a key).2.2.2.2.2.2.1, h]
  | setInt key v => simp [Op.run, (a key).2.2.2.2.2.2.2.1, h]
  | setUInt key v => simp [Op.run, (a key).2.2.2.2.2.2.2.2.1, h]
  | setBool key v => simp [Op.run, (a key).2.2.2.2.2.2.2.2.2.1, h]
  | setFloat key v => simp [Op.run, (a key).2.2.2.2.2.2.2.2.2.2.1, h]
  | setDouble key v => simp [Op.run, (a key).2.2.2.2.2.2.2.2.2.2.2.1, h]
  | clear key => simp [Op.run, (a key).2.2.2.2.2.2.2.2.2.2.2.2, h]

/-- C9: a facade made by `create()` has `mAppliedDefaults` false and no delegate; and once
`mAppliedDefaults` is true, every member function call (`setup` with any argument, null
included, `applyDefaults`, `applyDefaultsIfNoDelegatePresent`, every typed getter, every
typed setter, `clear`) leaves it true, so it is true after every sequence of such calls. -/
theorem C9_appliedDefaults_monotonic (s : Settings) (h : s.mAppliedDefaults = true)
    (op : Op) (ops : List Op) :
    (∀ id, (Settings.create id).mAppliedDefaults = false ∧
      (Settings.create id).mDelegate = none) ∧
    (op.run s).1.mAppliedDefaults = true ∧
    (Op.runAll ops s).mAppliedDefaults = true := by
  refine ⟨fun _ => ⟨rfl, rfl⟩, Op.run_applied op s h, ?_⟩
  induction ops generalizing s with
  | nil => exact h
  | cons o rest ih => exact ih _ (Op.run_applied o s h)

/-- Once the defaults were applied on a fresh facade, installing and removing a delegate
and reading through the facade keep the flag set. -/
theorem C9_appliedDefaults_monotonic_witness :
    (Settings.create 1).applyDefaultsIfNoDelegatePresent.self.mAppliedDefaults = true ∧
    (Op.runAll [Op.setup (some delegateA), Op.getString "k", Op.setup none, Op.clear "k"]
      (Settings.create 1).applyDefaultsIfNoDelegatePresent.self).mAppliedDefaults = true :=
  ⟨rfl, (C9_appliedDefaults_monotonic (Settings.create 1).applyDefaultsIfNoDelegatePresent.self
    rfl (Op.setup none)
    [Op.setup (some delegateA), Op.getString "k", Op.setup none, Op.clear "k"]).2.2⟩

/-! ## C10: two threads racing through the guard -/

/-- A thread running alone through its at most seven steps does what the sequential
`applyDefaultsIfNoDelegatePresent` does: same facade afterwards, same external calls. -/
theorem Race.run_alone (t : Bool) (s : Settings) :
    (Race.run (List.replicate 7 t) (Race.start s)).facade
      = s.applyDefaultsIfNoDelegatePresent.self ∧
    (Race.run (List.replicate 7 t) (Race.start s)).calls.map Prod.snd
      = s.applyDefaultsIfNoDelegatePresent.trace ∧
    ((Race.run (List.replicate 7 t) (Race.start s)).pc t).isDone = true := by
  rw [Settings.applyDefaultsIfNoDelegatePresent_eq]
  obtain ⟨id, w, l, dl, ap⟩ := s
  cases dl <;> cases ap <;>
    simp [Race.run, Race.step, Race.start, Settings.guardDefaults_eq, PC.isDone,
      Outcome.trace, List.replicate, Settings.applyDefaults, Settings.setString]

/-- C10 fails on the code: on a facade made by `create()` (no delegate,
`mAppliedDefaults` false) let both threads do their guarded read before either does its
locked write.  The lock is released between the guarded read and the write of the flag,
and the flag is not tested again, so both threads go on: when both have returned, each of
them has forwarded to the lower layer, where the claim allows at most one. -/
theorem C10_race_both_threads_apply :
    (Settings.create 1).mDelegate.isSome = false ∧
    (Settings.create 1).mAppliedDefaults = false ∧
    ((Race.run [false, true, false, false, false, false, true, true, true, true]
      (Race.start (Settings.create 1))).pc false).isDone = true ∧
    ((Race.run [false, true, false, false, false, false, true, true, true, true]
      (Race.start (Settings.create 1))).pc true).isDone = true ∧
    (Race.run [false, true, false, false, false, false, true, true, true, true]
      (Race.start (Settings.create 1))).calls
      = [(false, .stackApplyDefaults), (true, .stackApplyDefaults)] ∧
    Race.forwards false (Race.run [false, true, false, false, false, false, true, true, true, true]
      (Race.start (Settings.create 1))) = 1 ∧
    Race.forwards true (Race.run [false, true, false, false, false, false, true, true, true, true]
      (Race.start (Settings.create 1))) = 1 := by
  decide

end OpenPeer
